import Mathlib

/-!
Shallow embedding of the token-caching authentication client and the runtime
configuration store of the repository (files
`backend/app/core/auth_client.py`, `backend/app/core/runtime_config.py`).

Modelling choices:
* Time (`time.time()`) is an explicit `Int` parameter `now`, in seconds.
* The external HTTP world is an explicit environment
  `env : LoginRequest → LoginOutcome` describing, for each login request the
  client could issue, what the network would answer.  A 2xx response carries
  an optional parsed JSON body (`none` models a body that `response.json()`
  fails to parse).
* Python `Optional[str]` fields become `Option String`; Python truthiness of
  a token (`not self._token` is true for both `None` and the empty string)
  is the function `tokenTruthy`.
* Stateful methods become functions returning the result, the new
  `AuthClient` state, and the list of login requests actually sent on the
  wire, so that "performs no login call" / "exactly one login call" is the
  calls list being `[]` / a singleton.
* Exceptions become an `AuthError` sum carried in `Except` / `Option`;
  crucially, a raising method still returns the (possibly mutated) state,
  matching Python where `self` mutations before a `raise` persist.
-/

/-- Compiled-in defaults, the fields of `app.core.config.settings` read by
the two modules under study. -/
structure Settings where
  EXTERNAL_API_BASE_URL : String
  EXTERNAL_API_USERNAME : String
  EXTERNAL_API_PASSWORD : String
  EXTERNAL_API_LOGIN_PATH : String
  deriving DecidableEq, Repr

/-- The `_runtime_config` dict of `runtime_config.py`: three independent
optional overrides, `none` meaning "fall back to settings". -/
structure RuntimeConfig where
  external_api_base_url : Option String
  external_api_username : Option String
  external_api_password : Option String
  deriving DecidableEq, Repr

/-- The initial `_runtime_config` value: all three slots `None`. -/
def RuntimeConfig.init : RuntimeConfig := ⟨none, none, none⟩

/-- `get_external_api_base_url`: the override if set, else the default. -/
def get_external_api_base_url (st : Settings) (rc : RuntimeConfig) : String :=
  match rc.external_api_base_url with
  | some v => v
  | none => st.EXTERNAL_API_BASE_URL

/-- `set_external_api_base_url`. -/
def set_external_api_base_url (rc : RuntimeConfig) (url : String) : RuntimeConfig :=
  { rc with external_api_base_url := some url }

/-- `reset_external_api_base_url`. -/
def reset_external_api_base_url (rc : RuntimeConfig) : RuntimeConfig :=
  { rc with external_api_base_url := none }

/-- `get_external_api_username`: the override if set, else the default. -/
def get_external_api_username (st : Settings) (rc : RuntimeConfig) : String :=
  match rc.external_api_username with
  | some v => v
  | none => st.EXTERNAL_API_USERNAME

/-- `set_external_api_username`. -/
def set_external_api_username (rc : RuntimeConfig) (username : String) : RuntimeConfig :=
  { rc with external_api_username := some username }

/-- `get_external_api_password`: the override if set, else the default. -/
def get_external_api_password (st : Settings) (rc : RuntimeConfig) : String :=
  match rc.external_api_password with
  | some v => v
  | none => st.EXTERNAL_API_PASSWORD

/-- `set_external_api_password`. -/
def set_external_api_password (rc : RuntimeConfig) (password : String) : RuntimeConfig :=
  { rc with external_api_password := some password }

/-- The three runtime-configurable keys, for stating per-key properties of
the store uniformly. -/
inductive ConfigKey where
  | baseUrl
  | username
  | password
  deriving DecidableEq, Repr

/-- Dispatch to the getter of a key. -/
def getKey (k : ConfigKey) (st : Settings) (rc : RuntimeConfig) : String :=
  match k with
  | .baseUrl => get_external_api_base_url st rc
  | .username => get_external_api_username st rc
  | .password => get_external_api_password st rc

/-- Dispatch to the setter of a key. -/
def setKey (k : ConfigKey) (rc : RuntimeConfig) (v : String) : RuntimeConfig :=
  match k with
  | .baseUrl => set_external_api_base_url rc v
  | .username => set_external_api_username rc v
  | .password => set_external_api_password rc v

/-- The override slot of a key in the store. -/
def overrideOf (k : ConfigKey) (rc : RuntimeConfig) : Option String :=
  match k with
  | .baseUrl => rc.external_api_base_url
  | .username => rc.external_api_username
  | .password => rc.external_api_password

/-- The compiled-in default of a key. -/
def defaultOf (k : ConfigKey) (st : Settings) : String :=
  match k with
  | .baseUrl => st.EXTERNAL_API_BASE_URL
  | .username => st.EXTERNAL_API_USERNAME
  | .password => st.EXTERNAL_API_PASSWORD

/-- The mutable state of `AuthClient` (`__init__`). -/
structure AuthClient where
  _token : Option String
  _token_expires_at : Int
  _last_base_url : Option String
  _last_username : Option String
  _last_password : Option String
  deriving DecidableEq, Repr

/-- `AuthClient.__init__`: no token, expiry 0, no remembered credentials. -/
def AuthClient.init : AuthClient := ⟨none, 0, none, none, none⟩

/-- Python truthiness of the optional token string: `not self._token` is
true exactly when the token is `None` or the empty string. -/
def tokenTruthy : Option String → Bool
  | none => false
  | some t => !(t == "")

/-- `AuthClient._is_token_valid`: a truthy token whose expiry, minus the
60-second buffer, is still strictly in the future. -/
def AuthClient.is_token_valid (c : AuthClient) (now : Int) : Bool :=
  if !(tokenTruthy c._token) then false
  else decide (now < c._token_expires_at - 60)

/-- One login HTTP request as `_fetch_new_token` builds it: the URL and the
JSON body fields. -/
structure LoginRequest where
  url : String
  user_name : String
  password : String
  deriving DecidableEq, Repr

/-- The parsed JSON body of a login response, restricted to the two fields
the client reads (`.get("access_token")`, `.get("expires_in", 3600)`). -/
structure TokenData where
  access_token : Option String
  expires_in : Option Int
  deriving DecidableEq, Repr

/-- What the network answers a login request: either an HTTP response with a
status, raw body text and (when the body parses as JSON) its parsed fields,
or a transport-level failure raised by the HTTP client itself. -/
inductive LoginOutcome where
  | response (status : Nat) (body : String) (data : Option TokenData)
  | transportFailure (msg : String)
  deriving DecidableEq, Repr

/-- The errors `_fetch_new_token` can raise: `httpx.HTTPStatusError` from
`raise_for_status()`, a JSON decoding error from `response.json()`, the
`ValueError("No access_token in response")`, or a transport error from the
POST itself. -/
inductive AuthError where
  | httpStatusError (status : Nat) (body : String)
  | jsonDecodeError (msg : String)
  | valueError (msg : String)
  | transportError (msg : String)
  deriving DecidableEq, Repr

/-- The login request `_fetch_new_token` would issue under configuration
`rc`: URL `base_url ++ login_path`, body from the current username and
password. -/
def loginRequest (st : Settings) (rc : RuntimeConfig) : LoginRequest :=
  ⟨get_external_api_base_url st rc ++ st.EXTERNAL_API_LOGIN_PATH,
   get_external_api_username st rc,
   get_external_api_password st rc⟩

/-- `AuthClient._fetch_new_token`.  Reads the current triple, posts the
login request, and on a 2xx JSON response stores the token.  Mirrors the
source statement order: `self._token` is assigned from the response BEFORE
the `if not self._token: raise ValueError` check, so on a 2xx response with
a missing or empty `access_token` the state's token field has already been
overwritten when the error propagates.  Returns (error?, new state, wire
calls). -/
def fetch_new_token (st : Settings) (rc : RuntimeConfig) (c : AuthClient)
    (now : Int) (env : LoginRequest → LoginOutcome) :
    Option AuthError × AuthClient × List LoginRequest :=
  let base_url := get_external_api_base_url st rc
  let username := get_external_api_username st rc
  let password := get_external_api_password st rc
  let req : LoginRequest := ⟨base_url ++ st.EXTERNAL_API_LOGIN_PATH, username, password⟩
  match env req with
  | .transportFailure msg => (some (.transportError msg), c, [req])
  | .response status body data =>
    if 200 ≤ status ∧ status < 300 then
      match data with
      | none => (some (.jsonDecodeError "json decode failed"), c, [req])
      | some token_data =>
        let c1 : AuthClient := { c with _token := token_data.access_token }
        if !(tokenTruthy c1._token) then
          (some (.valueError "No access_token in response"), c1, [req])
        else
          let expires_in := token_data.expires_in.getD 3600
          (none,
           { c1 with
             _token_expires_at := now + expires_in,
             _last_base_url := some base_url,
             _last_username := some username,
             _last_password := some password },
           [req])
    else
      (some (.httpStatusError status body), c, [req])

/-- The `credentials_changed` condition of `get_access_token`: some
remembered credential is set and differs from the current one. -/
def credentials_changed (st : Settings) (rc : RuntimeConfig) (c : AuthClient) : Bool :=
  (c._last_base_url.isSome && c._last_base_url != some (get_external_api_base_url st rc)) ||
  (c._last_username.isSome && c._last_username != some (get_external_api_username st rc)) ||
  (c._last_password.isSome && c._last_password != some (get_external_api_password st rc))

/-- The invalidation step of `get_access_token`: when credentials changed,
drop the token and reset the expiry. -/
def invalidate_if_changed (st : Settings) (rc : RuntimeConfig) (c : AuthClient) : AuthClient :=
  if credentials_changed st rc c then { c with _token := none, _token_expires_at := 0 } else c

/-- `AuthClient.get_access_token`: invalidate on credential change, serve
the cached token when still valid, otherwise fetch a new one.  Returns
(token or error, new state, wire calls). -/
def get_access_token (st : Settings) (rc : RuntimeConfig) (c : AuthClient)
    (now : Int) (env : LoginRequest → LoginOutcome) :
    Except AuthError String × AuthClient × List LoginRequest :=
  let c1 := invalidate_if_changed st rc c
  if c1.is_token_valid now then
    (Except.ok (c1._token.getD ""), c1, [])
  else
    match fetch_new_token st rc c1 now env with
    | (some e, c2, calls) => (Except.error e, c2, calls)
    | (none, c2, calls) => (Except.ok (c2._token.getD ""), c2, calls)

/-- The observable configuration of the `httpx.AsyncClient` built by
`get_authorized_client`: its default headers and its timeout in seconds. -/
structure AsyncClientConfig where
  headers : List (String × String)
  timeout : Int
  deriving DecidableEq, Repr

/-- `AuthClient.get_authorized_client`: obtain a token, then wrap it in a
client preconfigured with the bearer header and a 30-second timeout. -/
def get_authorized_client (st : Settings) (rc : RuntimeConfig) (c : AuthClient)
    (now : Int) (env : LoginRequest → LoginOutcome) :
    Except AuthError AsyncClientConfig × AuthClient × List LoginRequest :=
  match get_access_token st rc c now env with
  | (Except.ok token, c2, calls) =>
      (Except.ok ⟨[("Authorization", "Bearer " ++ token)], 30⟩, c2, calls)
  | (Except.error e, c2, calls) => (Except.error e, c2, calls)

/-- The state an AuthClient is in right after a successful login exchange at
time `now` under configuration `rc` whose parsed response body was `td`:
token taken from the body, expiry `now` plus `expires_in` (default 3600),
and the current triple remembered. -/
def post_login (st : Settings) (rc : RuntimeConfig) (now : Int) (td : TokenData) : AuthClient :=
  ⟨td.access_token, now + td.expires_in.getD 3600,
   some (get_external_api_base_url st rc),
   some (get_external_api_username st rc),
   some (get_external_api_password st rc)⟩

/-- The state after a successful login at time `T` whose response carried
token `t` and no `expires_in` field: expiry defaults to `T + 3600`. -/
def c3fresh (st : Settings) (rc : RuntimeConfig) (t : String) (T : Int) : AuthClient :=
  ⟨some t, T + 3600,
   some (get_external_api_base_url st rc),
   some (get_external_api_username st rc),
   some (get_external_api_password st rc)⟩

/-- Concrete settings used by the witnesses and counterexamples. -/
def st0 : Settings := ⟨"http://b", "u", "p", "/login"⟩

/-- A client holding a token valid until 3600, issued for the `st0` defaults. -/
def cachedClient : AuthClient := ⟨some "tok", 3600, some "http://b", some "u", some "p"⟩

/-- A client holding a token that expired at 100, issued for the `st0` defaults. -/
def expiredClient : AuthClient := ⟨some "old", 100, some "http://b", some "u", some "p"⟩

/-- A network where every login request fails at the transport level. -/
def envOffline : LoginRequest → LoginOutcome := fun _ => .transportFailure "connection refused"

/-- A network answering every login with token "tokN" and expires_in 1800. -/
def envNewLogin : LoginRequest → LoginOutcome :=
  fun _ => .response 200 "" (some ⟨some "tokN", some 1800⟩)

/-- A network answering every login with token "tok1" and no expires_in. -/
def envTok1 : LoginRequest → LoginOutcome := fun _ => .response 200 "" (some ⟨some "tok1", none⟩)

/-- A network answering every login with token "tok2" and no expires_in. -/
def envTok2 : LoginRequest → LoginOutcome := fun _ => .response 200 "" (some ⟨some "tok2", none⟩)

/-- A network answering every login with HTTP 200 and a JSON body that has
no access_token field. -/
def envMalformed : LoginRequest → LoginOutcome := fun _ => .response 200 "" (some ⟨none, none⟩)

/-- A network answering every login with HTTP 200 and an empty-string
access_token. -/
def envEmptyTok : LoginRequest → LoginOutcome :=
  fun _ => .response 200 "" (some ⟨some "", none⟩)

/-- The client state after a login against `envTok1` at time 0 from a fresh
client: token "tok1", expiry 3600. -/
def c3_state : AuthClient :=
  (get_access_token st0 RuntimeConfig.init AuthClient.init 0 envTok1).2.1

/-- A valid cached token issued for the currently configured triple is
returned as is: no invalidation, no fetch, no state change. -/
lemma cache_hit_core (st : Settings) (rc : RuntimeConfig) (c : AuthClient) (now : Int)
    (env : LoginRequest → LoginOutcome) (t : String)
    (htok : c._token = some t) (hne : t ≠ "")
    (hb : c._last_base_url = some (get_external_api_base_url st rc))
    (hu : c._last_username = some (get_external_api_username st rc))
    (hp : c._last_password = some (get_external_api_password st rc))
    (hfresh : now < c._token_expires_at - 60) :
    get_access_token st rc c now env = (Except.ok t, c, []) := by
  unfold get_access_token invalidate_if_changed credentials_changed
  simp [hb, hu, hp, AuthClient.is_token_valid, htok, tokenTruthy, hne, hfresh]

/-- Whatever the network answers, one call to the fetch routine puts exactly
one login request on the wire. -/
lemma fetch_calls_eq (st : Settings) (rc : RuntimeConfig) (c : AuthClient)
    (now : Int) (env : LoginRequest → LoginOutcome) :
    (fetch_new_token st rc c now env).2.2 = [loginRequest st rc] := by
  unfold fetch_new_token
  rcases henv : env (loginRequest st rc) with ⟨status, body, data⟩ | msg
  · simp only [loginRequest] at henv
    simp only [henv]
    split
    · rcases data with _ | td
      · simp [loginRequest]
      · dsimp only
        split <;> simp [loginRequest]
    · simp [loginRequest]
  · simp only [loginRequest] at henv
    simp [henv, loginRequest]

/-- When the remembered triple matches the current configuration, the
invalidation step is the identity. -/
lemma invalidate_of_match (st : Settings) (rc : RuntimeConfig) (c : AuthClient)
    (hb : c._last_base_url = some (get_external_api_base_url st rc))
    (hu : c._last_username = some (get_external_api_username st rc))
    (hp : c._last_password = some (get_external_api_password st rc)) :
    invalidate_if_changed st rc c = c := by
  unfold invalidate_if_changed credentials_changed
  simp [hb, hu, hp]

/-- When the post-invalidation token is not valid, get_access_token is the
fetch routine applied to the post-invalidation state. -/
lemma run_of_fetch_invalid (st : Settings) (rc : RuntimeConfig) (c : AuthClient) (now : Int)
    (env : LoginRequest → LoginOutcome)
    (hinvalid : (invalidate_if_changed st rc c).is_token_valid now = false) :
    get_access_token st rc c now env =
      match fetch_new_token st rc (invalidate_if_changed st rc c) now env with
      | (some e, c2, calls) => (Except.error e, c2, calls)
      | (none, c2, calls) => (Except.ok (c2._token.getD ""), c2, calls) := by
  unfold get_access_token
  rw [if_neg (by simp [hinvalid])]

/-- A failing fetch leaves expiry and the remembered triple untouched, and
either leaves the token untouched too or overwrites it with the response's
non-truthy access_token value. -/
lemma fetch_err_state (st : Settings) (rc : RuntimeConfig) (c : AuthClient) (now : Int)
    (env : LoginRequest → LoginOutcome) (e : AuthError) (c2 : AuthClient)
    (calls : List LoginRequest)
    (h : fetch_new_token st rc c now env = (some e, c2, calls)) :
    c2._token_expires_at = c._token_expires_at ∧
    c2._last_base_url = c._last_base_url ∧
    c2._last_username = c._last_username ∧
    c2._last_password = c._last_password ∧
    (c2._token = c._token ∨ tokenTruthy c2._token = false) := by
  rcases henv : env (loginRequest st rc) with ⟨s, b, d⟩ | m
  · unfold fetch_new_token at h
    simp only [loginRequest] at henv
    simp only [henv] at h
    by_cases hs : 200 ≤ s ∧ s < 300
    · rw [if_pos hs] at h
      rcases d with _ | td
      · simp at h
        obtain ⟨-, h2, -⟩ := h
        subst h2
        simp
      · simp only at h
        by_cases ht : (!tokenTruthy td.access_token) = true
        · rw [if_pos ht] at h
          simp at h ht
          obtain ⟨-, h2, -⟩ := h
          subst h2
          simp [ht]
        · rw [if_neg ht] at h
          simp at h
    · rw [if_neg hs] at h
      simp at h
      obtain ⟨-, h2, -⟩ := h
      subst h2
      simp
  · unfold fetch_new_token at h
    simp only [loginRequest] at henv
    simp only [henv] at h
    simp at h
    obtain ⟨-, h2, -⟩ := h
    subst h2
    simp

/-- A successful fetch always leaves a truthy (non-empty) token. -/
lemma fetch_ok_truthy (st : Settings) (rc : RuntimeConfig) (c : AuthClient) (now : Int)
    (env : LoginRequest → LoginOutcome) (c2 : AuthClient) (calls : List LoginRequest)
    (h : fetch_new_token st rc c now env = (none, c2, calls)) :
    tokenTruthy c2._token = true := by
  rcases henv : env (loginRequest st rc) with ⟨s, b, d⟩ | m
  · unfold fetch_new_token at h
    simp only [loginRequest] at henv
    simp only [henv] at h
    by_cases hs : 200 ≤ s ∧ s < 300
    · rw [if_pos hs] at h
      rcases d with _ | td
      · simp at h
      · simp only at h
        by_cases ht : (!tokenTruthy td.access_token) = true
        · rw [if_pos ht] at h
          simp at h
        · rw [if_neg ht] at h
          simp at h ht
          obtain ⟨h2, -⟩ := h
          subst h2
          simp [ht]
    · rw [if_neg hs] at h
      simp at h
  · unfold fetch_new_token at h
    simp only [loginRequest] at henv
    simp only [henv] at h
    simp at h

/-- Fetch outcome when the network fails at the transport level. -/
lemma fetch_transport_case (st : Settings) (rc : RuntimeConfig) (c : AuthClient) (now : Int)
    (env : LoginRequest → LoginOutcome) (msg : String)
    (henv : env (loginRequest st rc) = .transportFailure msg) :
    fetch_new_token st rc c now env =
      (some (.transportError msg), c, [loginRequest st rc]) := by
  unfold fetch_new_token
  simp only [loginRequest] at henv
  simp only [henv]
  simp [loginRequest]

/-- Fetch outcome on a non-2xx response: raise_for_status raises, state kept. -/
lemma fetch_badstatus_case (st : Settings) (rc : RuntimeConfig) (c : AuthClient) (now : Int)
    (env : LoginRequest → LoginOutcome) (s : Nat) (b : String) (d : Option TokenData)
    (henv : env (loginRequest st rc) = .response s b d)
    (hs : ¬(200 ≤ s ∧ s < 300)) :
    fetch_new_token st rc c now env =
      (some (.httpStatusError s b), c, [loginRequest st rc]) := by
  unfold fetch_new_token
  simp only [loginRequest] at henv
  simp only [henv]
  simp [hs, loginRequest]

/-- Fetch outcome on a 2xx response whose body is not valid JSON. -/
lemma fetch_nojson_case (st : Settings) (rc : RuntimeConfig) (c : AuthClient) (now : Int)
    (env : LoginRequest → LoginOutcome) (s : Nat) (b : String)
    (henv : env (loginRequest st rc) = .response s b none)
    (hs : 200 ≤ s ∧ s < 300) :
    fetch_new_token st rc c now env =
      (some (.jsonDecodeError "json decode failed"), c, [loginRequest st rc]) := by
  unfold fetch_new_token
  simp only [loginRequest] at henv
  simp only [henv]
  simp [hs, loginRequest]

/-- Fetch outcome on a 2xx response whose access_token is missing or empty:
the ValueError is raised AFTER the token field has been overwritten. -/
lemma fetch_notoken_case (st : Settings) (rc : RuntimeConfig) (c : AuthClient) (now : Int)
    (env : LoginRequest → LoginOutcome) (s : Nat) (b : String) (td : TokenData)
    (henv : env (loginRequest st rc) = .response s b (some td))
    (hs : 200 ≤ s ∧ s < 300)
    (hff : tokenTruthy td.access_token = false) :
    fetch_new_token st rc c now env =
      (some (.valueError "No access_token in response"),
       { c with _token := td.access_token }, [loginRequest st rc]) := by
  unfold fetch_new_token
  simp only [loginRequest] at henv
  simp only [henv]
  simp [hs, hff, loginRequest]

/-- Fetch outcome on a 2xx response with a truthy access_token. -/
lemma fetch_ok_case (st : Settings) (rc : RuntimeConfig) (c : AuthClient) (now : Int)
    (env : LoginRequest → LoginOutcome) (s : Nat) (b : String) (td : TokenData)
    (henv : env (loginRequest st rc) = .response s b (some td))
    (hs : 200 ≤ s ∧ s < 300)
    (htt : tokenTruthy td.access_token = true) :
    fetch_new_token st rc c now env =
      (none, post_login st rc now td, [loginRequest st rc]) := by
  unfold fetch_new_token
  simp only [loginRequest] at henv
  simp only [henv]
  simp [hs, htt, post_login, loginRequest]

/-- get_authorized_client reproduces every error of get_access_token. -/
lemma authorized_error_of (st : Settings) (rc : RuntimeConfig) (c : AuthClient) (now : Int)
    (env : LoginRequest → LoginOutcome) (e : AuthError)
    (h : (get_access_token st rc c now env).1 = Except.error e) :
    (get_authorized_client st rc c now env).1 = Except.error e := by
  unfold get_authorized_client
  rcases hg : get_access_token st rc c now env with ⟨r, c2, calls⟩
  rw [hg] at h
  cases r <;> simp_all

/-- From a state with no token, a call under a 2xx network response with a
non-empty access_token performs one login and caches its result. -/
lemma fetch_success_run (st : Settings) (rc : RuntimeConfig) (c : AuthClient) (now : Int)
    (env : LoginRequest → LoginOutcome) (s : Nat) (b : String) (td : TokenData) (t : String)
    (hempty : c._token = none)
    (henv : env (loginRequest st rc) = .response s b (some td))
    (hs : 200 ≤ s ∧ s < 300)
    (htd : td.access_token = some t) (ht : t ≠ "") :
    get_access_token st rc c now env =
      (Except.ok t, post_login st rc now td, [loginRequest st rc]) := by
  have hinvtok : (invalidate_if_changed st rc c)._token = none := by
    unfold invalidate_if_changed; split <;> simp [hempty]
  have hinvalid : (invalidate_if_changed st rc c).is_token_valid now = false := by
    simp [AuthClient.is_token_valid, hinvtok, tokenTruthy]
  rw [run_of_fetch_invalid st rc c now env hinvalid]
  rw [fetch_ok_case st rc _ now env s b td henv hs (by simp [tokenTruthy, htd, ht])]
  simp [post_login, htd]

/-- Any token string get_access_token hands back is non-empty. -/
lemma run_ok_nonempty (st : Settings) (rc : RuntimeConfig) (c : AuthClient) (now : Int)
    (env : LoginRequest → LoginOutcome) (t : String)
    (h : (get_access_token st rc c now env).1 = Except.ok t) : t ≠ "" := by
  by_cases hv : (invalidate_if_changed st rc c).is_token_valid now
  · unfold get_access_token at h
    rw [if_pos hv] at h
    simp at h
    unfold AuthClient.is_token_valid at hv
    rcases htk : (invalidate_if_changed st rc c)._token with _ | s
    · rw [htk] at hv
      simp [tokenTruthy] at hv
    · rw [htk] at hv h
      simp [tokenTruthy] at hv h
      subst h
      exact hv.1
  · rw [run_of_fetch_invalid st rc c now env (by simpa using hv)] at h
    rcases hf : fetch_new_token st rc (invalidate_if_changed st rc c) now env with ⟨eo, c2, calls⟩
    rw [hf] at h
    rcases eo with _ | e'
    · simp at h
      have htr := fetch_ok_truthy st rc _ now env c2 calls hf
      rcases htk : c2._token with _ | s
      · rw [htk] at htr
        simp [tokenTruthy] at htr
      · rw [htk] at htr h
        simp [tokenTruthy] at htr h
        subst h
        exact htr
    · simp at h

/-- C1: if a cached token exists, the credential triple currently read from
the config store equals the triple remembered at the last successful login,
and the current time is strictly before expires_at minus the 60-second
margin, then get_access_token returns the cached token unchanged, mutates
nothing, and sends no login request (the result does not depend on the
network environment at all). -/
theorem C1_cache_hit (st : Settings) (rc : RuntimeConfig) (c : AuthClient) (now : Int)
    (env : LoginRequest → LoginOutcome) (t : String)
    (htok : c._token = some t) (hne : t ≠ "")
    (hb : c._last_base_url = some (get_external_api_base_url st rc))
    (hu : c._last_username = some (get_external_api_username st rc))
    (hp : c._last_password = some (get_external_api_password st rc))
    (hfresh : now < c._token_expires_at - 60) :
    get_access_token st rc c now env = (Except.ok t, c, []) :=
  cache_hit_core st rc c now env t htok hne hb hu hp hfresh

/-- C1 witness: a cached token "tok" valid until 3600 is returned at time 10
with no login call, even though the network is unreachable. -/
theorem C1_witness :
    get_access_token st0 RuntimeConfig.init cachedClient 10 envOffline =
      (Except.ok "tok", cachedClient, []) :=
  C1_cache_hit st0 RuntimeConfig.init cachedClient 10 envOffline "tok"
    rfl (by decide) rfl rfl rfl (by decide)

/-- C2: from a state holding a valid, non-expired cached token issued for
the currently configured triple, setting any one of the three config keys to
a different value makes the next get_access_token discard the cache, send
exactly one login request carrying the new triple, and return and cache the
token of that login's 2xx response — regardless of the old token's remaining
validity. -/
theorem C2_credential_change (st : Settings) (rc : RuntimeConfig) (c : AuthClient) (now : Int)
    (env : LoginRequest → LoginOutcome) (k : ConfigKey) (w t t2 : String)
    (status : Nat) (body : String) (td : TokenData)
    (htok : c._token = some t) (hne : t ≠ "")
    (hb : c._last_base_url = some (get_external_api_base_url st rc))
    (hu : c._last_username = some (get_external_api_username st rc))
    (hp : c._last_password = some (get_external_api_password st rc))
    (hfresh : now < c._token_expires_at - 60)
    (hw : w ≠ getKey k st rc)
    (henv : env (loginRequest st (setKey k rc w)) = .response status body (some td))
    (hstatus : 200 ≤ status ∧ status < 300)
    (htd : td.access_token = some t2) (ht2 : t2 ≠ "") :
    get_access_token st (setKey k rc w) c now env =
      (Except.ok t2,
       { _token := some t2,
         _token_expires_at := now + td.expires_in.getD 3600,
         _last_base_url := some (get_external_api_base_url st (setKey k rc w)),
         _last_username := some (get_external_api_username st (setKey k rc w)),
         _last_password := some (get_external_api_password st (setKey k rc w)) },
       [loginRequest st (setKey k rc w)]) := by
  have hchanged : credentials_changed st (setKey k rc w) c = true := by
    cases k <;>
      simp_all [credentials_changed, setKey, getKey,
        set_external_api_base_url, set_external_api_username, set_external_api_password,
        get_external_api_base_url, get_external_api_username, get_external_api_password] <;>
      exact fun h => hw h.symm
  unfold get_access_token invalidate_if_changed
  rw [hchanged]
  simp only [if_true]
  unfold fetch_new_token
  simp [AuthClient.is_token_valid, tokenTruthy, loginRequest] at henv ⊢
  rw [henv]
  simp [hstatus, htd, ht2, tokenTruthy]

/-- C2 witness: with token "tok" still valid at time 10, changing the
username to "u2" triggers one login as "u2" that returns "tokN". -/
theorem C2_witness :
    (get_access_token st0 (setKey .username RuntimeConfig.init "u2") cachedClient 10
      envNewLogin).1 = Except.ok "tokN" := by
  rw [C2_credential_change st0 RuntimeConfig.init cachedClient 10 envNewLogin .username
    "u2" "tok" "tokN" 200 "" ⟨some "tokN", some 1800⟩ rfl (by decide) rfl rfl rfl
    (by decide) (by decide) rfl (by decide) rfl (by decide)]

/-- C3 (as amended): a successful login at time T whose response omits
expires_in yields expires_at = T + 3600; the token is then served from cache
for every request STRICTLY before T + 3540, and every request at or after
T + 3540 (in particular at T + 3540 and at T + 3550) puts a fresh login
request on the wire.  The original claim's boundary case is off by one: at
exactly T + 3540 the validity check `now < expires_at - 60` already fails. -/
theorem C3_default_expiry (st : Settings) (rc : RuntimeConfig) (c : AuthClient) (T : Int)
    (env : LoginRequest → LoginOutcome) (status : Nat) (body : String) (t : String)
    (hempty : c._token = none)
    (henv : env (loginRequest st rc) = .response status body (some ⟨some t, none⟩))
    (hstatus : 200 ≤ status ∧ status < 300) (ht : t ≠ "") :
    get_access_token st rc c T env = (Except.ok t, c3fresh st rc t T, [loginRequest st rc])
    ∧ (∀ now env2, now < T + 3540 →
        get_access_token st rc (c3fresh st rc t T) now env2 =
          (Except.ok t, c3fresh st rc t T, []))
    ∧ (∀ now env2, T + 3540 ≤ now →
        (get_access_token st rc (c3fresh st rc t T) now env2).2.2 = [loginRequest st rc]) := by
  have hinv : (invalidate_if_changed st rc c)._token = none := by
    unfold invalidate_if_changed; split <;> simp [hempty]
  refine ⟨?_, ?_, ?_⟩
  · unfold get_access_token
    rw [if_neg (by simp [AuthClient.is_token_valid, hinv, tokenTruthy])]
    unfold fetch_new_token
    simp only [loginRequest] at henv
    simp only [henv]
    simp [hstatus, tokenTruthy, ht, c3fresh, loginRequest]
  · intro now env2 hnow
    exact cache_hit_core st rc (c3fresh st rc t T) now env2 t rfl ht rfl rfl rfl
      (by simp only [c3fresh]; omega)
  · intro now env2 hnow
    unfold get_access_token
    rw [invalidate_of_match st rc _ rfl rfl rfl]
    rw [if_neg (by simp [AuthClient.is_token_valid, c3fresh, tokenTruthy, ht]; omega)]
    have hc := fetch_calls_eq st rc (c3fresh st rc t T) now env2
    rcases h : fetch_new_token st rc (c3fresh st rc t T) now env2 with ⟨e, c2, calls⟩
    rw [h] at hc
    cases e <;> simpa using hc

/-- C3 witness: after a login at time 0 with no expires_in (token "tok1",
expiry 3600), a request at 3539 returns "tok1" from cache with no login. -/
theorem C3_witness :
    get_access_token st0 RuntimeConfig.init (c3fresh st0 RuntimeConfig.init "tok1" 0)
      3539 envTok2 =
      (Except.ok "tok1", c3fresh st0 RuntimeConfig.init "tok1" 0, []) := by
  have h := C3_default_expiry st0 RuntimeConfig.init AuthClient.init 0 envTok1 200 "" "tok1"
    rfl rfl (by decide) (by decide)
  exact h.2.1 3539 envTok2 (by decide)

/-- C3 counterexample: the claim says a request at exactly T + 3540 still
returns the cached token with no login.  After a login at T = 0 (cached
token "tok1", expires_at 3600), the request at 3540 instead performs a
login (non-empty wire calls) and returns the fresh token "tok2". -/
theorem C3_counterexample :
    c3_state._token = some "tok1" ∧
    c3_state._token_expires_at = 3600 ∧
    (get_access_token st0 RuntimeConfig.init c3_state 3540 envTok2).1 = Except.ok "tok2" ∧
    (get_access_token st0 RuntimeConfig.init c3_state 3540 envTok2).1 ≠ Except.ok "tok1" ∧
    (get_access_token st0 RuntimeConfig.init c3_state 3540 envTok2).2.2 ≠
      ([] : List LoginRequest) := by
  refine ⟨rfl, rfl, rfl, ?_, by decide⟩
  intro hcontra
  rw [show (get_access_token st0 RuntimeConfig.init c3_state 3540 envTok2).1 =
    Except.ok "tok2" from rfl] at hcontra
  exact absurd (Except.ok.inj hcontra) (by decide)

/-- C4 (as amended): when a refresh is attempted, every failing login
exchange makes get_access_token raise and leaves a fully characterised
state: a transport failure, a rejected (non-2xx) status and an unparseable
2xx body each leave the session state EXACTLY as it was after step 2's
invalidation (token, expiry and issued_for all unchanged), while a 2xx
response whose access_token is missing or empty overwrites the token field
with that missing/empty value before the error propagates, keeping expiry
and issued_for at their post-invalidation values.  The original claim's
"token unchanged" is false in that last case: the source assigns
`self._token` from the response before validating it. -/
theorem C4_failed_login_state (st : Settings) (rc : RuntimeConfig) (c : AuthClient)
    (now : Int) (env : LoginRequest → LoginOutcome)
    (hinvalid : (invalidate_if_changed st rc c).is_token_valid now = false) :
    (∀ msg, env (loginRequest st rc) = .transportFailure msg →
      get_access_token st rc c now env =
        (Except.error (.transportError msg), invalidate_if_changed st rc c,
         [loginRequest st rc])) ∧
    (∀ s b d, env (loginRequest st rc) = .response s b d → ¬(200 ≤ s ∧ s < 300) →
      get_access_token st rc c now env =
        (Except.error (.httpStatusError s b), invalidate_if_changed st rc c,
         [loginRequest st rc])) ∧
    (∀ s b, env (loginRequest st rc) = .response s b none → 200 ≤ s ∧ s < 300 →
      get_access_token st rc c now env =
        (Except.error (.jsonDecodeError "json decode failed"), invalidate_if_changed st rc c,
         [loginRequest st rc])) ∧
    (∀ s b td, env (loginRequest st rc) = .response s b (some td) → 200 ≤ s ∧ s < 300 →
      tokenTruthy td.access_token = false →
      get_access_token st rc c now env =
        (Except.error (.valueError "No access_token in response"),
         { invalidate_if_changed st rc c with _token := td.access_token },
         [loginRequest st rc])) := by
  have hrun := run_of_fetch_invalid st rc c now env hinvalid
  refine ⟨?_, ?_, ?_, ?_⟩
  · intro msg henv
    rw [hrun, fetch_transport_case st rc _ now env msg henv]
  · intro s b d henv hs
    rw [hrun, fetch_badstatus_case st rc _ now env s b d henv hs]
  · intro s b henv hs
    rw [hrun, fetch_nojson_case st rc _ now env s b henv hs]
  · intro s b td henv hs hff
    rw [hrun, fetch_notoken_case st rc _ now env s b td henv hs hff]

/-- C4 witness: the per-mode characterisation at concrete failing exchanges
from an expired cached token: a transport failure leaves the state exactly
as it was, and a 2xx response lacking access_token clears the token field
while keeping expiry and the remembered triple. -/
theorem C4_witness :
    get_access_token st0 RuntimeConfig.init expiredClient 100 envOffline =
      (Except.error (.transportError "connection refused"),
       invalidate_if_changed st0 RuntimeConfig.init expiredClient,
       [loginRequest st0 RuntimeConfig.init]) ∧
    get_access_token st0 RuntimeConfig.init expiredClient 100 envMalformed =
      (Except.error (.valueError "No access_token in response"),
       { invalidate_if_changed st0 RuntimeConfig.init expiredClient with _token := none },
       [loginRequest st0 RuntimeConfig.init]) :=
  ⟨(C4_failed_login_state st0 RuntimeConfig.init expiredClient 100 envOffline
      (by decide)).1 "connection refused" rfl,
   (C4_failed_login_state st0 RuntimeConfig.init expiredClient 100 envMalformed
      (by decide)).2.2.2 200 "" ⟨none, none⟩ rfl (by decide) rfl⟩

/-- C4 counterexample: with an expired cached token "old" and matching
credentials (no invalidation), a 2xx response lacking access_token makes
get_access_token fail AND changes the stored token field (to none), so the
previously cached token is NOT left unchanged by the failed exchange. -/
theorem C4_counterexample :
    credentials_changed st0 RuntimeConfig.init expiredClient = false ∧
    (get_access_token st0 RuntimeConfig.init expiredClient 100 envMalformed).1 =
      Except.error (.valueError "No access_token in response") ∧
    (get_access_token st0 RuntimeConfig.init expiredClient 100 envMalformed).2.1._token ≠
      expiredClient._token := by
  refine ⟨rfl, rfl, by decide⟩

/-- C5: a 2xx login response whose JSON body lacks the access_token field
makes get_access_token fail with the ValueError ("MalformedResponse"),
leaves no cached token in place (the token field is none), and a subsequent
call finds no valid cached token and performs a fresh login, succeeding when
the network then answers properly. -/
theorem C5_malformed_response (st : Settings) (rc : RuntimeConfig) (c : AuthClient)
    (now : Int) (env : LoginRequest → LoginOutcome) (s : Nat) (b : String) (td : TokenData)
    (hinvalid : (invalidate_if_changed st rc c).is_token_valid now = false)
    (henv : env (loginRequest st rc) = .response s b (some td))
    (hs : 200 ≤ s ∧ s < 300)
    (hmiss : td.access_token = none) :
    (get_access_token st rc c now env).1 =
      Except.error (.valueError "No access_token in response") ∧
    (get_access_token st rc c now env).2.1._token = none ∧
    (∀ now2 env2 s2 b2 td2 t2,
      env2 (loginRequest st rc) = .response s2 b2 (some td2) →
      200 ≤ s2 ∧ s2 < 300 → td2.access_token = some t2 → t2 ≠ "" →
      get_access_token st rc (get_access_token st rc c now env).2.1 now2 env2 =
        (Except.ok t2, post_login st rc now2 td2, [loginRequest st rc])) := by
  have hrun : get_access_token st rc c now env =
      (Except.error (.valueError "No access_token in response"),
       { invalidate_if_changed st rc c with _token := none }, [loginRequest st rc]) := by
    rw [run_of_fetch_invalid st rc c now env hinvalid]
    rw [fetch_notoken_case st rc _ now env s b td henv hs (by simp [tokenTruthy, hmiss])]
    rw [hmiss]
  refine ⟨by rw [hrun], by rw [hrun], ?_⟩
  intro now2 env2 s2 b2 td2 t2 henv2 hs2 htd2 ht2
  rw [hrun]
  exact fetch_success_run st rc _ now2 env2 s2 b2 td2 t2 rfl henv2 hs2 htd2 ht2

/-- C5 witness: expired cached token, then a 200 response without
access_token: the call errors, the token field is cleared, and the next call
against a working network logs in afresh and returns "tok2". -/
theorem C5_witness :
    (get_access_token st0 RuntimeConfig.init expiredClient 100 envMalformed).1 =
      Except.error (.valueError "No access_token in response") ∧
    (get_access_token st0 RuntimeConfig.init expiredClient 100 envMalformed).2.1._token = none ∧
    (get_access_token st0 RuntimeConfig.init
      (get_access_token st0 RuntimeConfig.init expiredClient 100 envMalformed).2.1
      200 envTok2).1 = Except.ok "tok2" := by
  have h := C5_malformed_response st0 RuntimeConfig.init expiredClient 100 envMalformed
    200 "" ⟨none, none⟩ (by decide) rfl (by decide) rfl
  refine ⟨h.1, h.2.1, ?_⟩
  rw [h.2.2 200 envTok2 200 "" ⟨some "tok2", none⟩ "tok2" rfl (by decide) rfl (by decide)]

/-- C6: when a refresh is attempted, every failure mode — transport failure,
non-2xx status (carrying that status and body), unparseable 2xx body, and
2xx body without a usable access_token — propagates as an error from both
get_access_token and get_authorized_client; in each case the result is an
error, never a stale token string. -/
theorem C6_error_propagation (st : Settings) (rc : RuntimeConfig) (c : AuthClient)
    (now : Int) (env : LoginRequest → LoginOutcome)
    (hinvalid : (invalidate_if_changed st rc c).is_token_valid now = false) :
    (∀ msg, env (loginRequest st rc) = .transportFailure msg →
      (get_access_token st rc c now env).1 = Except.error (.transportError msg) ∧
      (get_authorized_client st rc c now env).1 = Except.error (.transportError msg)) ∧
    (∀ s b d, env (loginRequest st rc) = .response s b d → ¬(200 ≤ s ∧ s < 300) →
      (get_access_token st rc c now env).1 = Except.error (.httpStatusError s b) ∧
      (get_authorized_client st rc c now env).1 = Except.error (.httpStatusError s b)) ∧
    (∀ s b, env (loginRequest st rc) = .response s b none → 200 ≤ s ∧ s < 300 →
      (get_access_token st rc c now env).1 = Except.error (.jsonDecodeError "json decode failed") ∧
      (get_authorized_client st rc c now env).1 = Except.error (.jsonDecodeError "json decode failed")) ∧
    (∀ s b td, env (loginRequest st rc) = .response s b (some td) → 200 ≤ s ∧ s < 300 →
      tokenTruthy td.access_token = false →
      (get_access_token st rc c now env).1 = Except.error (.valueError "No access_token in response") ∧
      (get_authorized_client st rc c now env).1 = Except.error (.valueError "No access_token in response")) := by
  have hrun := run_of_fetch_invalid st rc c now env hinvalid
  refine ⟨?_, ?_, ?_, ?_⟩
  · intro msg henv
    have ha : (get_access_token st rc c now env).1 = Except.error (.transportError msg) := by
      rw [hrun, fetch_transport_case st rc _ now env msg henv]
    exact ⟨ha, authorized_error_of st rc c now env _ ha⟩
  · intro s b d henv hs
    have ha : (get_access_token st rc c now env).1 = Except.error (.httpStatusError s b) := by
      rw [hrun, fetch_badstatus_case st rc _ now env s b d henv hs]
    exact ⟨ha, authorized_error_of st rc c now env _ ha⟩
  · intro s b henv hs
    have ha : (get_access_token st rc c now env).1 = Except.error (.jsonDecodeError "json decode failed") := by
      rw [hrun, fetch_nojson_case st rc _ now env s b henv hs]
    exact ⟨ha, authorized_error_of st rc c now env _ ha⟩
  · intro s b td henv hs hff
    have ha : (get_access_token st rc c now env).1 = Except.error (.valueError "No access_token in response") := by
      rw [hrun, fetch_notoken_case st rc _ now env s b td henv hs hff]
    exact ⟨ha, authorized_error_of st rc c now env _ ha⟩

/-- C6 witness: with an expired cached token and an unreachable network,
both entry points surface the transport error. -/
theorem C6_witness :
    (get_access_token st0 RuntimeConfig.init expiredClient 100 envOffline).1 =
      Except.error (.transportError "connection refused") ∧
    (get_authorized_client st0 RuntimeConfig.init expiredClient 100 envOffline).1 =
      Except.error (.transportError "connection refused") := by
  have h := C6_error_propagation st0 RuntimeConfig.init expiredClient 100 envOffline (by decide)
  exact h.1 "connection refused" rfl

/-- C7: for every key and every string v, after set(key, v) a get(key)
returns v, a get of each of the other two keys returns what it returned
before, and a key with no override resolves to its compiled-in default.
All getters are total functions — they never fail. -/
theorem C7_config_store (st : Settings) (rc : RuntimeConfig) (k : ConfigKey) (v : String) :
    getKey k st (setKey k rc v) = v ∧
    (∀ k2, k2 ≠ k → getKey k2 st (setKey k rc v) = getKey k2 st rc) ∧
    (overrideOf k rc = none → getKey k st rc = defaultOf k st) := by
  refine ⟨?_, ?_, ?_⟩
  · cases k <;>
      simp [getKey, setKey, set_external_api_base_url, set_external_api_username,
        set_external_api_password, get_external_api_base_url, get_external_api_username,
        get_external_api_password]
  · intro k2 hne
    cases k <;> cases k2 <;>
      simp_all [getKey, setKey, set_external_api_base_url, set_external_api_username,
        set_external_api_password, get_external_api_base_url, get_external_api_username,
        get_external_api_password]
  · intro h
    cases k <;>
      simp_all [getKey, overrideOf, defaultOf, get_external_api_base_url,
        get_external_api_username, get_external_api_password]

/-- C7 witness: setting the username to "alice" is visible immediately,
leaves the password at its default "p", and an unset base URL resolves to
the default "http://b". -/
theorem C7_witness :
    getKey .username st0 (setKey .username RuntimeConfig.init "alice") = "alice" ∧
    getKey .password st0 (setKey .username RuntimeConfig.init "alice") = "p" ∧
    getKey .baseUrl st0 RuntimeConfig.init = "http://b" := by
  have h := C7_config_store st0 RuntimeConfig.init .username "alice"
  refine ⟨h.1, ?_, ?_⟩
  · rw [h.2.1 .password (by decide)]
    rfl
  · exact ((C7_config_store st0 RuntimeConfig.init ConfigKey.baseUrl "zzz").2.2 rfl).trans rfl

/-- C9: get_authorized_client produces exactly the state and wire calls of
the get_access_token call it wraps (no further side effect); on success it
returns a client configured with the header Authorization: Bearer token and
a 30-second timeout, and on failure it returns the same error. -/
theorem C9_authorized_client (st : Settings) (rc : RuntimeConfig) (c : AuthClient)
    (now : Int) (env : LoginRequest → LoginOutcome) :
    (get_authorized_client st rc c now env).2 = (get_access_token st rc c now env).2 ∧
    (∀ t, (get_access_token st rc c now env).1 = Except.ok t →
      (get_authorized_client st rc c now env).1 =
        Except.ok ⟨[("Authorization", "Bearer " ++ t)], 30⟩) ∧
    (∀ e, (get_access_token st rc c now env).1 = Except.error e →
      (get_authorized_client st rc c now env).1 = Except.error e) := by
  unfold get_authorized_client
  rcases h : get_access_token st rc c now env with ⟨r, c2, calls⟩
  cases r <;> simp

/-- C9 witness: with cached token "tok", the wrapper yields a client with
the bearer header for "tok" and timeout 30. -/
theorem C9_witness :
    (get_authorized_client st0 RuntimeConfig.init cachedClient 10 envOffline).1 =
      Except.ok ⟨[("Authorization", "Bearer tok")], 30⟩ := by
  have h := C9_authorized_client st0 RuntimeConfig.init cachedClient 10 envOffline
  exact h.2.1 "tok" rfl

/-- C10 (implicit): a 2xx login response whose access_token is the empty
string fails with exactly the error raised when the field is absent; the
validity check rejects every state whose cached token is the empty string;
and no call of get_access_token ever returns the empty string. -/
theorem C10_empty_token (st : Settings) (rc : RuntimeConfig) (c : AuthClient)
    (now : Int) (env : LoginRequest → LoginOutcome) :
    (∀ s b td, (invalidate_if_changed st rc c).is_token_valid now = false →
      env (loginRequest st rc) = .response s b (some td) → 200 ≤ s ∧ s < 300 →
      td.access_token = some "" →
      (get_access_token st rc c now env).1 =
        Except.error (.valueError "No access_token in response")) ∧
    (∀ c2 now2, c2._token = some "" → AuthClient.is_token_valid c2 now2 = false) ∧
    (∀ t, (get_access_token st rc c now env).1 = Except.ok t → t ≠ "") := by
  refine ⟨?_, ?_, ?_⟩
  · intro s b td hinvalid henv hs hemp
    rw [run_of_fetch_invalid st rc c now env hinvalid]
    rw [fetch_notoken_case st rc _ now env s b td henv hs (by simp [tokenTruthy, hemp])]
  · intro c2 now2 htk
    simp [AuthClient.is_token_valid, htk, tokenTruthy]
  · exact run_ok_nonempty st rc c now env

/-- C10 witness: an empty-string access_token in a 200 response produces the
same ValueError as a missing one, and a state caching "" is never valid. -/
theorem C10_witness :
    (get_access_token st0 RuntimeConfig.init expiredClient 100 envEmptyTok).1 =
      Except.error (.valueError "No access_token in response") ∧
    AuthClient.is_token_valid ⟨some "", 5000, none, none, none⟩ 0 = false := by
  have h := C10_empty_token st0 RuntimeConfig.init expiredClient 100 envEmptyTok
  exact ⟨h.1 200 "" ⟨some "", none⟩ (by decide) rfl (by decide) rfl, h.2.1 _ 0 rfl⟩
